import Mathlib

/-!
Shallow embedding of the human-errors library (error chain model and renderer)
and proofs about its advice aggregation, cause listing, message composition,
word wrapping and conversion shims.

The embedding follows the final variant of the library:
  - the Error struct of src/error.rs (kind, boxed error value, static advice),
  - Kind and Kind::format_description of src/kind.rs,
  - wrap of src/wrapper.rs,
  - the conversion from platform I/O errors of src/from/std_io.rs,
  - OptionExt of src/option.rs,
  - write_wrapped and the fixed-width padding of src/pretty.rs.
-/

/-- Kind of error, src/kind.rs: User or System. -/
inductive Kind where
  | user
  | system
deriving DecidableEq, BEq, Repr

/-- Kind::format_description of src/kind.rs: the hero-line template applied
to a description. -/
def Kind.format_description (k : Kind) (d : String) : String :=
  match k with
  | .user => d ++ " (User error)"
  | .system => d ++ " (System failure)"

/-- A value of the dynamic error type used as the boxed payload of an Error.
Constructor node embeds the Error struct of src/error.rs: a kind, a boxed
error value and directly-declared advice.  Constructor basic embeds every
non-domain boxed error with a Display text and an optional deeper source:
ErrorWithMessage of src/wrapper.rs is basic m (some inner), and a plain
string or platform error converted into a boxed error is basic m none. -/
inductive ErrorChain where
  | node (kind : Kind) (error : ErrorChain) (advice : List String) : ErrorChain
  | basic (message : String) (inner : Option ErrorChain) : ErrorChain

/-- The std source accessor.  For the Error struct (src/error.rs,
impl error::Error: source returns self.error.source(), skipping the wrapped
value itself); for ErrorWithMessage (src/wrapper.rs) it returns the stored
inner error; for a plain boxed text value there is no source. -/
def ErrorChain.src : ErrorChain → Option ErrorChain
  | .node _ e _ => e.src
  | .basic _ inner => inner

/-- Error::new of src/error.rs: wraps a boxed error value with a kind and
static advice. -/
def ErrorChain.new (error : ErrorChain) (kind : Kind) (advice : List String) : ErrorChain :=
  ErrorChain.node kind error advice

/-- Error::is of src/error.rs: self.kind == kind (only domain nodes carry a
kind; a bare boxed value is never a domain Error). -/
def ErrorChain.is (v : ErrorChain) (k : Kind) : Bool :=
  match v with
  | .node kk _ _ => kk == k
  | .basic _ _ => false

/-- Error::description of src/error.rs: if the wrapped value downcasts to a
domain Error, recurse into its description; otherwise the Display text of
the wrapped value.  On a basic value the function gives its Display text,
which is what both branches of the source produce. -/
def ErrorChain.description : ErrorChain → String
  | .node _ e _ => e.description
  | .basic m _ => m

/-- The advice directly declared on a value: the advice field when the value
downcasts to a domain Error (src/error.rs line 134), nothing otherwise. -/
def ErrorChain.ownAdvice : ErrorChain → List String
  | .node _ _ a => a
  | .basic _ _ => []

/-- The text pushed for one cause in Error::caused_by of src/error.rs:
err.description() when the cause downcasts to a domain Error, the Display
text otherwise. -/
def ErrorChain.causeText : ErrorChain → String
  | .node k e a => ErrorChain.description (.node k e a)
  | .basic m _ => m

/-- The cursor loop of Error::caused_by (src/error.rs lines 215-224):
starting from a cursor, while the cursor has a source, push the cause text
of that source and move the cursor to it.  Written structurally: the cursor
transition function is ErrorChain.src, and walkCauses is proved below to
satisfy exactly the loop equations (walkCauses_src_none, walkCauses_src_some). -/
def ErrorChain.walkCauses : ErrorChain → List String
  | .basic _ none => []
  | .basic _ (some e) => ErrorChain.causeText e :: ErrorChain.walkCauses e
  | .node _ inner _ => ErrorChain.walkCauses inner

/-- Error::caused_by of src/error.rs: the cursor starts at self.error (the
wrapped value), so the wrapped value itself never contributes an entry. -/
def ErrorChain.caused_by : ErrorChain → List String
  | .node _ e _ => ErrorChain.walkCauses e
  | .basic _ _ => []

/-- The cursor loop of Error::advice (src/error.rs lines 132-139) from the
position after a given cursor: at each position, a domain Error contributes
its directly-declared advice; the cursor then moves to the position's source.
Proved below to satisfy the loop equations (collectFromSrc_src_none,
collectFromSrc_src_some). -/
def ErrorChain.collectFromSrc : ErrorChain → List String
  | .basic _ none => []
  | .basic _ (some e) => ErrorChain.ownAdvice e ++ ErrorChain.collectFromSrc e
  | .node _ inner _ => ErrorChain.collectFromSrc inner

/-- The advice gathered by the loop of Error::advice starting with the cursor
at a value (the cursor in the source starts at self.error and visits it). -/
def ErrorChain.collectAdvice (v : ErrorChain) : List String :=
  ErrorChain.ownAdvice v ++ ErrorChain.collectFromSrc v

/-- The dedup step of Error::advice (src/error.rs lines 143-144): a HashSet
of seen items; retain keeps an item exactly when it was not seen before,
scanning left to right. -/
def retainFirst (seen : List String) : List String → List String
  | [] => []
  | x :: xs =>
    if x ∈ seen then retainFirst seen xs
    else x :: retainFirst (x :: seen) xs

/-- Error::advice of src/error.rs lines 129-147: start from the node's own
advice, walk the source chain from self.error collecting the
directly-declared advice of every domain Error met, reverse, then drop
every item already seen. -/
def ErrorChain.advice : ErrorChain → List String
  | .node _ e a => retainFirst [] (List.reverse (a ++ ErrorChain.collectAdvice e))
  | .basic _ _ => []

/-- Error::message of src/error.rs lines 182-211: the hero line (the
kind-specific template applied to the description) followed by an optional
caused-by section and an optional advice section, each introduced by a blank
line, items joined by the list separator. -/
def ErrorChain.message : ErrorChain → String
  | .node k e a =>
    let hero := k.format_description (ErrorChain.description (.node k e a))
    let cause := ErrorChain.caused_by (.node k e a)
    let adv := ErrorChain.advice (.node k e a)
    if !cause.isEmpty && !adv.isEmpty then
      hero ++ "\n\nThis was caused by:\n - " ++ String.intercalate "\n - " cause
        ++ "\n\nTo try and fix this, you can:\n - " ++ String.intercalate "\n - " adv
    else if !cause.isEmpty then
      hero ++ "\n\nThis was caused by:\n - " ++ String.intercalate "\n - " cause
    else if !adv.isEmpty then
      hero ++ "\n\nTo try and fix this, you can:\n - " ++ String.intercalate "\n - " adv
    else hero
  | .basic m _ => m

/-- wrap of src/wrapper.rs: wraps an inner error with a message, producing
an ErrorWithMessage whose Display is the message and whose source is the
inner error. -/
def wrap (inner : ErrorChain) (message : String) : ErrorChain :=
  ErrorChain.basic message (some inner)

/-- Modelled from the spec: the convenience constructor user(error, advice)
is not under src (only its callers are); per section 6 of the spec it builds
a user-kind node from a wrapped error and advice via Error::new. -/
def user (error : ErrorChain) (advice : List String) : ErrorChain :=
  ErrorChain.new error .user advice

/-- Modelled from the spec: the convenience constructor system(error, advice)
is not under src (only its callers are); per section 6 of the spec it builds
a system-kind node from a wrapped error and advice via Error::new. -/
def system (error : ErrorChain) (advice : List String) : ErrorChain :=
  ErrorChain.new error .system advice

/-- Modelled from the spec: wrap_user(causeError, message, advice) is not
under src (only its callers are); per section 6 of the spec it combines the
message-wrapping step with user-kind node construction. -/
def wrap_user (cause : ErrorChain) (message : String) (advice : List String) : ErrorChain :=
  ErrorChain.new (wrap cause message) .user advice

/-- Modelled from the spec: wrap_system(causeError, message, advice) is not
under src (only its callers are); per section 6 of the spec it combines the
message-wrapping step with system-kind node construction. -/
def wrap_system (cause : ErrorChain) (message : String) (advice : List String) : ErrorChain :=
  ErrorChain.new (wrap cause message) .system advice

/-- OptionExt::ok_or_user_err of src/option.rs: Some passes through, None
becomes a user-kind error built from the message and advice. -/
def ok_or_user_err {α : Type u} (o : Option α) (msg : String) (advice : List String) :
    Except ErrorChain α :=
  match o with
  | some value => .ok value
  | none => .error (user (.basic msg none) advice)

/-- OptionExt::ok_or_system_err of src/option.rs: Some passes through, None
becomes a system-kind error built from the message and advice. -/
def ok_or_system_err {α : Type u} (o : Option α) (msg : String) (advice : List String) :
    Except ErrorChain α :=
  match o with
  | some value => .ok value
  | none => .error (system (.basic msg none) advice)

/-- The platform error kinds distinguished by src/from/std_io.rs: the five
named kinds plus every other kind, the latter carrying an opaque code. -/
inductive IoErrorKind where
  | notFound
  | permissionDenied
  | alreadyExists
  | addrInUse
  | directoryNotEmpty
  | other (code : Nat)
deriving DecidableEq, Repr

/-- From io::Error for Error, src/from/std_io.rs: categorize the platform
error kind into fixed canned description and advice pairs; the platform
error itself (a boxed displayable value with the given Display text and no
deeper source) becomes the wrapped cause. -/
def from_io (kind : IoErrorKind) (display : String) : ErrorChain :=
  match kind with
  | .notFound => wrap_user (.basic display none)
      "Could not find the requested file."
      ["Check that the file path you provided is correct and try again."]
  | .permissionDenied => wrap_user (.basic display none)
      "Permission denied when trying to access the requested resource."
      ["Check the file permissions and ensure that the application has access to the resource."]
  | .alreadyExists => wrap_user (.basic display none)
      "The file or directory you are trying to create already exists."
      ["Choose a different file name or delete the existing file and try again."]
  | .addrInUse => wrap_user (.basic display none)
      "The network address you are trying to bind to is already in use."
      ["Make sure no other application is using the same address and try again."]
  | .directoryNotEmpty => wrap_user (.basic display none)
      "The directory you are trying to remove is not empty."
      ["Delete all files and subdirectories within the directory before attempting to remove it."]
  | .other _ => wrap_system (.basic display none)
      "An internal error occurred which we could not recover from."
      ["Please read the internal error below and decide if there is something you can do to fix the problem, or report it to us on GitHub."]

/-- The chain of cursor positions strictly after a value: its source, the
source of that source, and so on.  Used to state that the caused-by and
advice loops visit each chain position once. -/
def ErrorChain.sourceChain : ErrorChain → List ErrorChain
  | .basic _ none => []
  | .basic _ (some e) => e :: ErrorChain.sourceChain e
  | .node _ inner _ => ErrorChain.sourceChain inner

/-- Modelled from the spec: the word-wrap of the textwrap crate used by
write_wrapped in src/pretty.rs is an external dependency; per the word-wrap
contract of section 4.2 it breaks only at whitespace boundaries at the given
column budget.  Words are joined with single spaces into one chunk per line. -/
def joinSp : List String → String
  | [] => ""
  | [w] => w
  | w :: ws => w ++ " " ++ joinSp ws

/-- Modelled from the spec: greedy filling of whole words into lines of at
most the column budget, counting one space between adjacent words; a word is
never split, so a word longer than the budget occupies a line by itself.
line is the (nonempty) current line and len its rendered length. -/
def fillWords (width : Nat) (line : List String) (len : Nat) : List String → List (List String)
  | [] => [line]
  | w :: ws =>
    if len + 1 + w.length ≤ width then
      fillWords width (line ++ [w]) (len + 1 + w.length) ws
    else
      line :: fillWords width [w] w.length ws

/-- Modelled from the spec: the lines produced by wrapping a word sequence
at the given column budget; each line is a contiguous block of whole words. -/
def wrapLines (width : Nat) : List String → List (List String)
  | [] => []
  | w :: ws => fillWords width [w] w.length ws

/-- Modelled from the spec: the chunks handed to the rendering loop, one
string per wrapped line. -/
def wrapChunks (width : Nat) (ws : List String) : List String :=
  (wrapLines width ws).map joinSp

/-- The run of spaces appended by write_wrapped in src/pretty.rs:
a space repeated (width saturating-minus chunk length) times. -/
def mkSpaces (n : Nat) : String := (List.replicate n ' ').asString

/-- write_wrapped of src/pretty.rs lines 109-137: for each wrapped chunk,
emit prefix, chunk, trailing spaces up to the column budget, then suffix;
the first chunk uses the first-line pair and later chunks the other-lines
pair.  The content is given as its whitespace-separated words. -/
def write_wrapped (width : Nat) (firstLine otherLines : String × String)
    (ws : List String) : List String :=
  match wrapChunks width ws with
  | [] => []
  | c :: cs =>
    (firstLine.1 ++ c ++ mkSpaces (width - c.length) ++ firstLine.2)
      :: cs.map (fun chunk => otherLines.1 ++ chunk ++ mkSpaces (width - chunk.length) ++ otherLines.2)

example : ErrorChain.advice
    (ErrorChain.new (ErrorChain.new (.basic "Low-level failure." none) .system
        ["Check low-level systems"]) .user ["Check high-level configuration"])
    = ["Check low-level systems", "Check high-level configuration"] := by decide

example : (user (.basic "Something bad happened." none)
    ["Avoid bad things happening in future"]).message
    = "Something bad happened. (User error)\n\nTo try and fix this, you can:\n - Avoid bad things happening in future" := by
  decide

/-- The caused-by loop stops as soon as the source lookup at the cursor
returns none. -/
theorem walkCauses_src_none : ∀ (v : ErrorChain), v.src = none →
    ErrorChain.walkCauses v = []
  | .basic _ none, _ => rfl
  | .basic _ (some _), h => by simp [ErrorChain.src] at h
  | .node _ inner _, h => walkCauses_src_none inner h

/-- One step of the caused-by loop: when the source lookup succeeds, emit
the cause text of the source and continue from it. -/
theorem walkCauses_src_some : ∀ (v e : ErrorChain), v.src = some e →
    ErrorChain.walkCauses v = ErrorChain.causeText e :: ErrorChain.walkCauses e
  | .basic _ none, _, h => by simp [ErrorChain.src] at h
  | .basic _ (some x), e, h => by
    obtain rfl : x = e := by simpa [ErrorChain.src] using h
    rfl
  | .node _ inner _, e, h => walkCauses_src_some inner e h

/-- The advice-collection loop stops as soon as the source lookup at the
cursor returns none. -/
theorem collectFromSrc_src_none : ∀ (v : ErrorChain), v.src = none →
    ErrorChain.collectFromSrc v = []
  | .basic _ none, _ => rfl
  | .basic _ (some _), h => by simp [ErrorChain.src] at h
  | .node _ inner _, h => collectFromSrc_src_none inner h

/-- One step of the advice-collection loop: move the cursor to the source
and collect that position's own advice followed by the rest of the walk. -/
theorem collectFromSrc_src_some : ∀ (v e : ErrorChain), v.src = some e →
    ErrorChain.collectFromSrc v = ErrorChain.collectAdvice e
  | .basic _ none, _, h => by simp [ErrorChain.src] at h
  | .basic _ (some x), e, h => by
    obtain rfl : x = e := by simpa [ErrorChain.src] using h
    rfl
  | .node _ inner _, e, h => collectFromSrc_src_some inner e h

/-- The source chain is empty exactly when the source lookup returns none. -/
theorem sourceChain_src_none : ∀ (v : ErrorChain), v.src = none →
    ErrorChain.sourceChain v = []
  | .basic _ none, _ => rfl
  | .basic _ (some _), h => by simp [ErrorChain.src] at h
  | .node _ inner _, h => sourceChain_src_none inner h

/-- One step of the source chain: the source followed by its own chain. -/
theorem sourceChain_src_some : ∀ (v e : ErrorChain), v.src = some e →
    ErrorChain.sourceChain v = e :: ErrorChain.sourceChain e
  | .basic _ none, _, h => by simp [ErrorChain.src] at h
  | .basic _ (some x), e, h => by
    obtain rfl : x = e := by simpa [ErrorChain.src] using h
    rfl
  | .node _ inner _, e, h => sourceChain_src_some inner e h

/-- The caused-by loop emits exactly one cause text per chain position. -/
theorem walkCauses_map : ∀ (v : ErrorChain),
    ErrorChain.walkCauses v = (ErrorChain.sourceChain v).map ErrorChain.causeText
  | .basic _ none => rfl
  | .basic _ (some e) => by
    have ih := walkCauses_map e
    simp [ErrorChain.walkCauses, ErrorChain.sourceChain, ih]
  | .node _ inner _ => walkCauses_map inner

/-- The advice-collection walk gathers exactly the directly-declared advice
of each chain position, in chain order. -/
theorem collectFromSrc_flatMap : ∀ (v : ErrorChain),
    ErrorChain.collectFromSrc v = (ErrorChain.sourceChain v).flatMap ErrorChain.ownAdvice
  | .basic _ none => rfl
  | .basic _ (some e) => by
    have ih := collectFromSrc_flatMap e
    simp [ErrorChain.collectFromSrc, ErrorChain.sourceChain, ih, ErrorChain.collectAdvice]
  | .node _ inner _ => collectFromSrc_flatMap inner

/-- The source chain is finite, bounded by the size of the value; hence the
loops over it terminate. -/
theorem sourceChain_length_le : ∀ (v : ErrorChain),
    (ErrorChain.sourceChain v).length ≤ sizeOf v
  | .basic m none => by simp [ErrorChain.sourceChain]
  | .basic m (some e) => by
    have ih := sourceChain_length_le e
    have hs : sizeOf (ErrorChain.basic m (some e)) = 1 + sizeOf m + (1 + sizeOf e) := by
      simp
    simp only [ErrorChain.sourceChain, List.length_cons]
    omega
  | .node k inner a => by
    have ih := sourceChain_length_le inner
    have hs : sizeOf (ErrorChain.node k inner a) = 1 + sizeOf k + sizeOf inner + sizeOf a := by
      simp
    simp only [ErrorChain.sourceChain]
    omega

/-- Deduplication keeps a subsequence: the order of surviving items is the
order they had in the input. -/
theorem retainFirst_sublist : ∀ (seen l : List String), List.Sublist (retainFirst seen l) l
  | _, [] => List.Sublist.slnil
  | seen, x :: xs => by
    by_cases h : x ∈ seen
    · simpa [retainFirst, h] using List.Sublist.cons x (retainFirst_sublist seen xs)
    · simpa [retainFirst, h] using List.Sublist.cons₂ x (retainFirst_sublist (x :: seen) xs)

/-- Membership after deduplication: an item survives exactly when it occurs
in the input and was not already seen. -/
theorem mem_retainFirst : ∀ (seen l : List String) (x : String),
    x ∈ retainFirst seen l ↔ x ∈ l ∧ x ∉ seen
  | _, [], x => by simp [retainFirst]
  | seen, y :: ys, x => by
    by_cases h : y ∈ seen
    · rw [retainFirst, if_pos h, mem_retainFirst seen ys x]
      constructor
      · exact fun ⟨hx, hs⟩ => ⟨List.mem_cons_of_mem _ hx, hs⟩
      · rintro ⟨hx, hs⟩
        rcases List.mem_cons.mp hx with rfl | hx
        · exact absurd h hs
        · exact ⟨hx, hs⟩
    · rw [retainFirst, if_neg h]
      constructor
      · intro hmem
        rcases List.mem_cons.mp hmem with rfl | hmem
        · exact ⟨List.mem_cons_self x ys, h⟩
        · obtain ⟨hx, hs⟩ := (mem_retainFirst (y :: seen) ys x).mp hmem
          exact ⟨List.mem_cons_of_mem _ hx,
            fun hin => hs (List.mem_cons_of_mem _ hin)⟩
      · rintro ⟨hx, hs⟩
        rcases List.mem_cons.mp hx with rfl | hx
        · exact List.mem_cons_self x _
        · by_cases hxy : x = y
          · exact hxy ▸ List.mem_cons_self y _
          · refine List.mem_cons_of_mem _ ((mem_retainFirst (y :: seen) ys x).mpr ⟨hx, ?_⟩)
            exact fun hin => (List.mem_cons.mp hin).elim hxy hs

/-- Deduplication leaves no duplicates. -/
theorem nodup_retainFirst : ∀ (seen l : List String), (retainFirst seen l).Nodup
  | _, [] => List.nodup_nil
  | seen, x :: xs => by
    by_cases h : x ∈ seen
    · simpa [retainFirst, h] using nodup_retainFirst seen xs
    · rw [retainFirst, if_neg h]
      refine List.nodup_cons.mpr ⟨fun hmem => ?_, nodup_retainFirst (x :: seen) xs⟩
      exact ((mem_retainFirst (x :: seen) xs x).mp hmem).2 (List.mem_cons_self x seen)

/-- A later duplicate of an item already present earlier (or already seen)
is dropped by the deduplication. -/
theorem retainFirst_drop_dup : ∀ (l₁ : List String) (seen : List String) (x : String)
    (l₂ : List String), x ∈ l₁ ∨ x ∈ seen →
    retainFirst seen (l₁ ++ x :: l₂) = retainFirst seen (l₁ ++ l₂)
  | [], seen, x, l₂, h => by
    have hx : x ∈ seen := by simpa using h
    simp [retainFirst, hx]
  | a :: t, seen, x, l₂, h => by
    by_cases ha : a ∈ seen
    · rw [List.cons_append, retainFirst, if_pos ha, List.cons_append, retainFirst, if_pos ha]
      refine retainFirst_drop_dup t seen x l₂ ?_
      rcases h with hx | hx
      · rcases List.mem_cons.mp hx with rfl | hx
        · exact Or.inr ha
        · exact Or.inl hx
      · exact Or.inr hx
    · rw [List.cons_append, retainFirst, if_neg ha, List.cons_append, retainFirst, if_neg ha]
      refine congrArg (a :: ·) (retainFirst_drop_dup t (a :: seen) x l₂ ?_)
      rcases h with hx | hx
      · rcases List.mem_cons.mp hx with rfl | hx
        · exact Or.inr (List.mem_cons_self x seen)
        · exact Or.inl hx
      · exact Or.inr (List.mem_cons_of_mem _ hx)

/-- Filling never splits a word: flattening the produced lines gives back
the pending line followed by the remaining words. -/
theorem fillWords_flatten : ∀ (ws : List String) (width : Nat) (line : List String) (len : Nat),
    (fillWords width line len ws).flatten = line ++ ws
  | [], _, line, _ => by simp [fillWords]
  | w :: ws, width, line, len => by
    simp only [fillWords]
    by_cases h : len + 1 + w.length ≤ width
    · rw [if_pos h, fillWords_flatten ws width (line ++ [w]) (len + 1 + w.length)]
      simp
    · rw [if_neg h]
      simp [fillWords_flatten ws width [w] w.length]

/-- Wrapping never splits a word: the lines concatenate back to the input
word sequence. -/
theorem wrapLines_flatten (width : Nat) (ws : List String) :
    (wrapLines width ws).flatten = ws := by
  cases ws with
  | nil => rfl
  | cons w ws => simpa [wrapLines] using fillWords_flatten ws width [w] w.length

/-- Length of a rendered line after appending one word: one separating
space plus the word. -/
theorem joinSp_length_append : ∀ (line : List String) (w : String), line ≠ [] →
    (joinSp (line ++ [w])).length = (joinSp line).length + 1 + w.length
  | [], _, h => absurd rfl h
  | [x], w, _ => by
    show (x ++ " " ++ w).length = x.length + 1 + w.length
    rw [String.length_append, String.length_append]
    have h1 : (" " : String).length = 1 := rfl
    omega
  | x :: y :: t, w, _ => by
    have ih := joinSp_length_append (y :: t) w (by simp)
    show (x ++ " " ++ joinSp ((y :: t) ++ [w])).length
      = (x ++ " " ++ joinSp (y :: t)).length + 1 + w.length
    rw [String.length_append, String.length_append, ih,
      String.length_append, String.length_append]
    omega

/-- Invariant of the greedy fill: when every pending word fits in the
budget and the running length is the accurate rendered length of the
nonempty current line and fits, every produced line fits the budget. -/
theorem fillWords_fit : ∀ (ws : List String) (width : Nat) (line : List String) (len : Nat),
    line ≠ [] → len = (joinSp line).length → len ≤ width →
    (∀ w ∈ ws, w.length ≤ width) →
    ∀ c ∈ fillWords width line len ws, (joinSp c).length ≤ width
  | [], width, line, len, _, hlen, hle, _, c, hc => by
    obtain rfl : c = line := by simpa [fillWords] using hc
    omega
  | w :: ws, width, line, len, hne, hlen, hle, hfit, c, hc => by
    rw [fillWords] at hc
    by_cases h : len + 1 + w.length ≤ width
    · rw [if_pos h] at hc
      refine fillWords_fit ws width (line ++ [w]) (len + 1 + w.length) (by simp)
        ?_ h (fun u hu => hfit u (List.mem_cons_of_mem _ hu)) c hc
      rw [joinSp_length_append line w hne, hlen]
    · rw [if_neg h] at hc
      rcases List.mem_cons.mp hc with rfl | hc
      · omega
      · exact fillWords_fit ws width [w] w.length (by simp) rfl
          (hfit w (List.mem_cons_self w ws))
          (fun u hu => hfit u (List.mem_cons_of_mem _ hu)) c hc

/-- Every chunk produced by the modelled wrap fits the column budget when
every word does. -/
theorem wrapChunks_fit (width : Nat) (ws : List String)
    (hfit : ∀ w ∈ ws, w.length ≤ width) :
    ∀ c ∈ wrapChunks width ws, c.length ≤ width := by
  cases ws with
  | nil => intro c hc; simp [wrapChunks, wrapLines] at hc
  | cons w ws =>
    intro c hc
    rw [wrapChunks] at hc
    obtain ⟨l, hl, rfl⟩ := List.mem_map.mp hc
    exact fillWords_fit ws width [w] w.length (by simp) rfl
      (hfit w (List.mem_cons_self w ws))
      (fun u hu => hfit u (List.mem_cons_of_mem _ hu)) l hl

/-- The space run has the requested length. -/
theorem mkSpaces_length (n : Nat) : (mkSpaces n).length = n := by
  simp [mkSpaces]

/-- A chunk padded with trailing spaces reaches exactly the column budget
when the chunk fits the budget. -/
theorem padded_length (width : Nat) (c : String) (h : c.length ≤ width) :
    (c ++ mkSpaces (width - c.length)).length = width := by
  rw [String.length_append, mkSpaces_length]
  omega

/-- C1: for every error node with directly-declared advice [a] whose wrapped
source is a domain error node with directly-declared advice [b] and no deeper
cause, advice() returns [b, a] when a differs from b and [b] when they are
equal; in general the accumulated advice list is reversed after the chain
walk and then deduplicated keeping only the first occurrence of each string,
with the order of surviving items preserved (the result is a duplicate-free
subsequence with the same members, and a later duplicate of an earlier item
is dropped). -/
theorem claim_C1 :
    (∀ (k₁ k₂ : Kind) (s : ErrorChain) (a b : String),
      ErrorChain.src (ErrorChain.node k₂ s [b]) = none →
      ErrorChain.advice (ErrorChain.node k₁ (ErrorChain.node k₂ s [b]) [a]) =
        if a = b then [b] else [b, a])
    ∧ (∀ (k : Kind) (e : ErrorChain) (adv : List String),
      ErrorChain.advice (ErrorChain.node k e adv) =
        retainFirst [] (List.reverse (adv ++ ErrorChain.collectAdvice e)))
    ∧ (∀ l : List String,
      List.Sublist (retainFirst [] l) l ∧ (retainFirst [] l).Nodup
        ∧ ∀ x : String, x ∈ retainFirst [] l ↔ x ∈ l)
    ∧ (∀ (l₁ l₂ : List String) (x : String), x ∈ l₁ →
      retainFirst [] (l₁ ++ x :: l₂) = retainFirst [] (l₁ ++ l₂)) := by
  refine ⟨?_, fun k e adv => rfl,
    fun l => ⟨retainFirst_sublist [] l, nodup_retainFirst [] l,
      fun x => by simpa using mem_retainFirst [] l x⟩,
    fun l₁ l₂ x h => retainFirst_drop_dup l₁ [] x l₂ (Or.inl h)⟩
  intro k₁ k₂ s a b h
  have h0 : ErrorChain.collectFromSrc (ErrorChain.node k₂ s [b]) = [] :=
    collectFromSrc_src_none _ h
  simp only [ErrorChain.advice, ErrorChain.collectAdvice, ErrorChain.ownAdvice, h0,
    List.append_nil, List.reverse_append, List.reverse_cons, List.reverse_nil,
    List.nil_append, List.cons_append, List.singleton_append]
  by_cases hab : a = b <;> simp [retainFirst, hab]

/-- C1 witness: the two-node chain with distinct advice gives [b, a], and
with identical advice gives just the shared item. -/
theorem claim_C1_witness :
    ErrorChain.advice (ErrorChain.node .user
        (ErrorChain.node .system (.basic "deep" none) ["b"]) ["a"]) = ["b", "a"]
    ∧ ErrorChain.advice (ErrorChain.node .user
        (ErrorChain.node .system (.basic "deep" none) ["a"]) ["a"]) = ["a"] := by
  constructor
  · have h := claim_C1.1 .user .system (.basic "deep" none) "a" "b" rfl
    rwa [if_neg (by decide)] at h
  · have h := claim_C1.1 .user .system (.basic "deep" none) "a" "a" rfl
    rwa [if_pos rfl] at h

/-- C2: caused_by() lists one description per cause in chain order,
immediate cause first and deepest last (the walk order, not reversed), while
advice() is the reversal of the walk-order advice accumulation followed by
dedup, hence deepest-cause advice first and head-node advice last; on a
three-level chain with distinct advice the two orderings are opposite. -/
theorem claim_C2 :
    (∀ (k : Kind) (e : ErrorChain) (a : List String),
      ErrorChain.caused_by (ErrorChain.node k e a) =
        (ErrorChain.sourceChain e).map ErrorChain.causeText)
    ∧ (∀ (k : Kind) (e : ErrorChain) (a : List String),
      ErrorChain.advice (ErrorChain.node k e a) =
        retainFirst [] (List.reverse
          ((ErrorChain.node k e a :: e :: ErrorChain.sourceChain e).flatMap
            ErrorChain.ownAdvice)))
    ∧ (∀ (k₁ k₂ k₃ : Kind) (mh m₂ m₃ a₁ a₂ a₃ : String),
      a₁ ≠ a₂ → a₁ ≠ a₃ → a₂ ≠ a₃ →
      ErrorChain.caused_by (ErrorChain.node k₁ (.basic mh (some (ErrorChain.node k₂
          (.basic m₂ (some (ErrorChain.node k₃ (.basic m₃ none) [a₃]))) [a₂]))) [a₁])
        = [m₂, m₃]
      ∧ ErrorChain.advice (ErrorChain.node k₁ (.basic mh (some (ErrorChain.node k₂
          (.basic m₂ (some (ErrorChain.node k₃ (.basic m₃ none) [a₃]))) [a₂]))) [a₁])
        = [a₃, a₂, a₁]) := by
  refine ⟨fun k e a => walkCauses_map e, fun k e a => ?_,
    fun k₁ k₂ k₃ mh m₂ m₃ a₁ a₂ a₃ h₁₂ h₁₃ h₂₃ => ⟨rfl, ?_⟩⟩
  · simp only [ErrorChain.advice, ErrorChain.collectAdvice, collectFromSrc_flatMap,
      List.flatMap_cons, ErrorChain.ownAdvice, List.append_assoc]
  · simp [ErrorChain.advice, ErrorChain.collectAdvice, ErrorChain.collectFromSrc,
      ErrorChain.ownAdvice, retainFirst, h₁₂, h₁₃, h₂₃, Ne.symm h₁₂, Ne.symm h₁₃,
      Ne.symm h₂₃]

/-- C2 witness: a concrete three-level chain where the cause listing runs
outward while the aggregated advice runs inward. -/
theorem claim_C2_witness :
    ErrorChain.caused_by (ErrorChain.node .user (.basic "head" (some (ErrorChain.node .user
        (.basic "mid" (some (ErrorChain.node .system (.basic "deep" none) ["a3"]))) ["a2"]))) ["a1"])
      = ["mid", "deep"]
    ∧ ErrorChain.advice (ErrorChain.node .user (.basic "head" (some (ErrorChain.node .user
        (.basic "mid" (some (ErrorChain.node .system (.basic "deep" none) ["a3"]))) ["a2"]))) ["a1"])
      = ["a3", "a2", "a1"] :=
  claim_C2.2.2 .user .user .system "head" "mid" "deep" "a1" "a2" "a3"
    (by decide) (by decide) (by decide)

/-- C3: the scenario user(wrap("You got rate limited", "Something bad
happened."), ["Avoid bad things happening in future"]) has description
"Something bad happened." and its message contains both the caused-by line
and the advice line. -/
theorem claim_C3 :
    ErrorChain.description (user (wrap (.basic "You got rate limited" none)
        "Something bad happened.") ["Avoid bad things happening in future"])
      = "Something bad happened."
    ∧ (∃ s₁ s₂ : String,
      ErrorChain.message (user (wrap (.basic "You got rate limited" none)
          "Something bad happened.") ["Avoid bad things happening in future"])
        = s₁ ++ "This was caused by:\n - You got rate limited" ++ s₂)
    ∧ (∃ t₁ t₂ : String,
      ErrorChain.message (user (wrap (.basic "You got rate limited" none)
          "Something bad happened.") ["Avoid bad things happening in future"])
        = t₁ ++ "To try and fix this, you can:\n - Avoid bad things happening in future" ++ t₂) := by
  refine ⟨by decide, ⟨"Something bad happened. (User error)\n\n",
    "\n\nTo try and fix this, you can:\n - Avoid bad things happening in future", by decide⟩,
    ⟨"Something bad happened. (User error)\n\nThis was caused by:\n - You got rate limited\n\n",
    "", by decide⟩⟩

/-- C4: for a node whose caused_by() and aggregated advice() are both empty,
message() is exactly the hero line (the kind template applied to the
description); when sections are present, each is separated by a blank line
from what precedes it. -/
theorem claim_C4 (k : Kind) (e : ErrorChain) (a : List String) :
    (ErrorChain.caused_by (ErrorChain.node k e a) = [] →
      ErrorChain.advice (ErrorChain.node k e a) = [] →
      ErrorChain.message (ErrorChain.node k e a)
        = k.format_description (ErrorChain.description (ErrorChain.node k e a)))
    ∧ (ErrorChain.caused_by (ErrorChain.node k e a) ≠ [] →
      ErrorChain.advice (ErrorChain.node k e a) ≠ [] →
      ErrorChain.message (ErrorChain.node k e a)
        = k.format_description (ErrorChain.description (ErrorChain.node k e a))
          ++ "\n\nThis was caused by:\n - "
          ++ String.intercalate "\n - " (ErrorChain.caused_by (ErrorChain.node k e a))
          ++ "\n\nTo try and fix this, you can:\n - "
          ++ String.intercalate "\n - " (ErrorChain.advice (ErrorChain.node k e a)))
    ∧ (ErrorChain.caused_by (ErrorChain.node k e a) ≠ [] →
      ErrorChain.advice (ErrorChain.node k e a) = [] →
      ErrorChain.message (ErrorChain.node k e a)
        = k.format_description (ErrorChain.description (ErrorChain.node k e a))
          ++ "\n\nThis was caused by:\n - "
          ++ String.intercalate "\n - " (ErrorChain.caused_by (ErrorChain.node k e a)))
    ∧ (ErrorChain.caused_by (ErrorChain.node k e a) = [] →
      ErrorChain.advice (ErrorChain.node k e a) ≠ [] →
      ErrorChain.message (ErrorChain.node k e a)
        = k.format_description (ErrorChain.description (ErrorChain.node k e a))
          ++ "\n\nTo try and fix this, you can:\n - "
          ++ String.intercalate "\n - " (ErrorChain.advice (ErrorChain.node k e a))) := by
  refine ⟨fun h₁ h₂ => ?_, fun h₁ h₂ => ?_, fun h₁ h₂ => ?_, fun h₁ h₂ => ?_⟩ <;>
    simp [ErrorChain.message, h₁, h₂, List.isEmpty_iff, String.append_assoc]

/-- C4 witness: a node with no cause and no advice renders as exactly the
hero line. -/
theorem claim_C4_witness :
    ErrorChain.message (ErrorChain.node .user (.basic "x" none) [])
      = Kind.format_description .user
          (ErrorChain.description (ErrorChain.node .user (.basic "x" none) [])) :=
  (claim_C4 .user (.basic "x" none) []).1 rfl rfl

/-- C5: the modelled word wrap never breaks a word (the produced lines
flatten back to the input word sequence), and when every word fits the
column budget, every emitted line of write_wrapped is a chunk padded with
trailing spaces to exactly the column budget before the closing suffix, so
right-hand borders align. -/
theorem claim_C5 (width : Nat) (ws : List String) (fl ol : String × String) :
    (wrapLines width ws).flatten = ws
    ∧ ((∀ w ∈ ws, w.length ≤ width) →
      ∀ line ∈ write_wrapped width fl ol ws,
        ∃ c, c ∈ wrapChunks width ws ∧ c.length ≤ width ∧
          (line = fl.1 ++ c ++ mkSpaces (width - c.length) ++ fl.2 ∨
            line = ol.1 ++ c ++ mkSpaces (width - c.length) ++ ol.2) ∧
          (c ++ mkSpaces (width - c.length)).length = width) := by
  refine ⟨wrapLines_flatten width ws, fun hfit line hline => ?_⟩
  rw [write_wrapped] at hline
  cases hc : wrapChunks width ws with
  | nil => rw [hc] at hline; simp at hline
  | cons c cs =>
    rw [hc] at hline
    rcases List.mem_cons.mp hline with rfl | hline
    · have hcmem : c ∈ wrapChunks width ws := by rw [hc]; exact List.mem_cons_self c cs
      have hcle := wrapChunks_fit width ws hfit c hcmem
      exact ⟨c, List.mem_cons_self c cs, hcle, Or.inl (by simp [String.append_assoc]),
        padded_length width c hcle⟩
    · obtain ⟨c', hc', rfl⟩ := List.mem_map.mp hline
      have hcmem : c' ∈ wrapChunks width ws := by
        rw [hc]; exact List.mem_cons_of_mem _ hc'
      have hcle := wrapChunks_fit width ws hfit c' hcmem
      exact ⟨c', List.mem_cons_of_mem _ hc', hcle, Or.inr (by simp [String.append_assoc]),
        padded_length width c' hcle⟩

/-- C5 witness: two short words render as a single chunk padded to the
budget between the first-line markers. -/
theorem claim_C5_witness :
    (wrapLines 8 ["ab", "cd"]).flatten = ["ab", "cd"]
    ∧ ∃ c, c ∈ wrapChunks 8 ["ab", "cd"] ∧ c.length ≤ 8 ∧
        ("<ab cd   >" = ("<", ">").1 ++ c ++ mkSpaces (8 - c.length) ++ ("<", ">").2 ∨
          "<ab cd   >" = ("[", "]").1 ++ c ++ mkSpaces (8 - c.length) ++ ("[", "]").2) ∧
        (c ++ mkSpaces (8 - c.length)).length = 8 := by
  refine ⟨(claim_C5 8 ["ab", "cd"] ("<", ">") ("[", "]")).1, ?_⟩
  exact (claim_C5 8 ["ab", "cd"] ("<", ">") ("[", "]")).2 (by decide)
    "<ab cd   >" (by decide)

/-- C6: the conversion from a platform I/O error yields a user-kind error
exactly for the five named platform error kinds, each with its fixed canned
description and advice; every other kind yields a system-kind error with
the fixed internal-error description and advice. -/
theorem claim_C6 (m : String) :
    (∀ k : IoErrorKind, ((from_io k m).is .user = true ↔
      (k = .notFound ∨ k = .permissionDenied ∨ k = .alreadyExists
        ∨ k = .addrInUse ∨ k = .directoryNotEmpty)))
    ∧ (from_io .notFound m).description = "Could not find the requested file."
    ∧ (from_io .notFound m).advice
        = ["Check that the file path you provided is correct and try again."]
    ∧ (from_io .permissionDenied m).description
        = "Permission denied when trying to access the requested resource."
    ∧ (from_io .permissionDenied m).advice
        = ["Check the file permissions and ensure that the application has access to the resource."]
    ∧ (from_io .alreadyExists m).description
        = "The file or directory you are trying to create already exists."
    ∧ (from_io .alreadyExists m).advice
        = ["Choose a different file name or delete the existing file and try again."]
    ∧ (from_io .addrInUse m).description
        = "The network address you are trying to bind to is already in use."
    ∧ (from_io .addrInUse m).advice
        = ["Make sure no other application is using the same address and try again."]
    ∧ (from_io .directoryNotEmpty m).description
        = "The directory you are trying to remove is not empty."
    ∧ (from_io .directoryNotEmpty m).advice
        = ["Delete all files and subdirectories within the directory before attempting to remove it."]
    ∧ (∀ code : Nat, (from_io (.other code) m).is .system = true
        ∧ (from_io (.other code) m).is .user = false
        ∧ (from_io (.other code) m).description
            = "An internal error occurred which we could not recover from."
        ∧ (from_io (.other code) m).advice
            = ["Please read the internal error below and decide if there is something you can do to fix the problem, or report it to us on GitHub."]) := by
  refine ⟨fun k => ?_, rfl, rfl, rfl, rfl, rfl, rfl, rfl, rfl, rfl, rfl,
    fun code => ⟨rfl, rfl, rfl, rfl⟩⟩
  cases k <;>
    simp only [from_io, wrap_user, wrap_system, wrap, ErrorChain.new, ErrorChain.is] <;>
    simp <;> decide

/-- C7: wrapping a plain text value (not a nested domain node) and reading
description() returns exactly that text. -/
theorem claim_C7 (k : Kind) (s : String) (inner : Option ErrorChain) (a : List String) :
    ErrorChain.description (ErrorChain.new (.basic s inner) k a) = s
    ∧ ErrorChain.description (.basic s inner) = s :=
  ⟨rfl, rfl⟩

/-- C8: the caused_by() and advice() traversals follow the source chain,
stopping exactly when the source lookup returns none, visiting each chain
position once (one cause entry per position; one advice contribution per
position including the start), and the chain is finite, bounded by the size
of the value. -/
theorem claim_C8 :
    (∀ v : ErrorChain, v.src = none → ErrorChain.sourceChain v = [])
    ∧ (∀ v e : ErrorChain, v.src = some e →
        ErrorChain.sourceChain v = e :: ErrorChain.sourceChain e)
    ∧ (∀ (k : Kind) (e : ErrorChain) (a : List String),
        (ErrorChain.caused_by (ErrorChain.node k e a)).length
          = (ErrorChain.sourceChain e).length)
    ∧ (∀ (k : Kind) (e : ErrorChain) (a : List String),
        a ++ ErrorChain.collectAdvice e
          = ((ErrorChain.node k e a) :: e :: ErrorChain.sourceChain e).flatMap
              ErrorChain.ownAdvice)
    ∧ (∀ v : ErrorChain, (ErrorChain.sourceChain v).length ≤ sizeOf v) := by
  refine ⟨sourceChain_src_none, sourceChain_src_some, fun k e a => ?_, fun k e a => ?_,
    sourceChain_length_le⟩
  · show (ErrorChain.walkCauses e).length = _
    rw [walkCauses_map e, List.length_map]
  · simp only [List.flatMap_cons, ErrorChain.ownAdvice, ErrorChain.collectAdvice,
      collectFromSrc_flatMap, List.append_assoc]

/-- C8 witness: the chain walk stops at a sourceless value and takes one
step through a wrapping value. -/
theorem claim_C8_witness :
    ErrorChain.sourceChain (.basic "a" none) = []
    ∧ ErrorChain.sourceChain (.basic "a" (some (.basic "b" none)))
        = (.basic "b" none) :: ErrorChain.sourceChain (.basic "b" none) :=
  ⟨claim_C8.1 _ rfl, claim_C8.2.1 _ _ rfl⟩

/-- C9: the standard source accessor of a node built by Error::new returns
the source of the wrapped value, not the wrapped value itself; hence with a
sourceless wrapped value the node has no source and no cause entries, while
the wrapped value still supplies the description. -/
theorem claim_C9 (k : Kind) (s : ErrorChain) (a : List String) :
    ErrorChain.src (ErrorChain.new s k a) = s.src
    ∧ ErrorChain.description (ErrorChain.new s k a) = s.description
    ∧ ErrorChain.caused_by (ErrorChain.new s k a)
        = (ErrorChain.sourceChain s).map ErrorChain.causeText
    ∧ (s.src = none → ErrorChain.src (ErrorChain.new s k a) = none
        ∧ ErrorChain.caused_by (ErrorChain.new s k a) = []) := by
  refine ⟨rfl, rfl, walkCauses_map s, fun h => ⟨h, ?_⟩⟩
  show ErrorChain.walkCauses s = []
  exact walkCauses_src_none s h

/-- C9 witness: a node wrapping a sourceless displayable value has no source
and an empty cause list. -/
theorem claim_C9_witness :
    ErrorChain.src (ErrorChain.new (.basic "You got rate limited" none) .user []) = none
    ∧ ErrorChain.caused_by (ErrorChain.new (.basic "You got rate limited" none) .user []) = [] :=
  (claim_C9 .user (.basic "You got rate limited" none) []).2.2.2 rfl

/-- C10: ok_or_user_err and ok_or_system_err pass a present value through
unchanged; on none they produce an error of user kind and system kind
respectively, built from the given message and advice. -/
theorem claim_C10 {α : Type u} (v : α) (msg : String) (adv : List String) :
    ok_or_user_err (some v) msg adv = Except.ok v
    ∧ ok_or_system_err (some v) msg adv = Except.ok v
    ∧ ok_or_user_err (none : Option α) msg adv
        = Except.error (user (.basic msg none) adv)
    ∧ (user (.basic msg none) adv).is Kind.user = true
    ∧ ok_or_system_err (none : Option α) msg adv
        = Except.error (system (.basic msg none) adv)
    ∧ (system (.basic msg none) adv).is Kind.system = true :=
  ⟨rfl, rfl, rfl, rfl, rfl, rfl⟩
